import Mathlib

/-!
Verification of the pybind11 binding layer in
src/pybamm/solvers/c_solvers/idaklu_python.cpp, together with a model of
the DAE integration engine it exposes.  The binding file registers two
solve entry points (solve_python and solve_casadi), binds
std::vector<np_array> as the opaque sequence type VectorNdArray, and binds
the Solution record with four read-write fields t, y, yS and flag.  The
engine itself (idaklu.cpp / idaklu_casadi.cpp and their headers) is not
part of the sources under verification; where a claim depends on it, the
engine is modelled from the specification and the definitions say so in
their doc comments.
-/

/-- Access mode of a pybind11 field binding: def_readonly or def_readwrite. -/
inductive Access where
  | readonly
  | readwrite
deriving DecidableEq, Repr

/-- Return-value policy attached to a pybind11 def. The binding file uses
py::return_value_policy::take_ownership on both solve entry points. -/
inductive RetPolicy where
  | automatic
  | takeOwnership
  | copy
  | reference
deriving DecidableEq, Repr

/-- One declared argument of a bound function: its py::arg name and whether
the binding supplies a default value (py::arg("x") = v). -/
structure ArgSpec where
  name : String
  hasDefault : Bool
deriving DecidableEq, Repr

/-- One m.def entry of the module: exposed name, ordered argument list,
and return-value policy. -/
structure FnBinding where
  fname : String
  args : List ArgSpec
  policy : RetPolicy
deriving DecidableEq, Repr

/-- One field of a py::class_ binding.  The access mode is read off the
binding file.  The ftype records the Python-side type of the field; the C++
field declarations live in idaklu.hpp, which is outside the verified
sources, so ftype follows the spec, section 3: t and y are arrays, yS is a
sequence of sensitivity blocks exposed through the opaque VectorNdArray
binding, flag is an integer. -/
structure FieldBinding where
  name : String
  ftype : String
  access : Access
deriving DecidableEq, Repr

/-- One py::class_ binding: exposed class name and its bound fields. -/
structure ClassBinding where
  cname : String
  fields : List FieldBinding
deriving DecidableEq, Repr

/-- The whole PYBIND11_MODULE: module name, docstring, the names given to
py::bind_vector opaque sequence bindings, the function defs and the class
bindings. -/
structure PyModule where
  mname : String
  doc : String
  vectorBindings : List String
  fns : List FnBinding
  classes : List ClassBinding
deriving DecidableEq, Repr

/-- Shorthand for a mandatory argument (py::arg with no default value),
which is how every argument of the binding file is declared. -/
def marg (s : String) : ArgSpec := ⟨s, false⟩

/-- The solve_python def exactly as registered in idaklu_python.cpp. -/
def solve_python_binding : FnBinding :=
  ⟨"solve_python",
   [marg "t", marg "y0", marg "yp0", marg "res", marg "jac", marg "sens",
    marg "get_jac_data", marg "get_jac_row_vals", marg "get_jac_col_ptr",
    marg "nnz", marg "events", marg "number_of_events", marg "use_jacobian",
    marg "rhs_alg_id", marg "atol", marg "rtol",
    marg "number_of_sensitivity_parameters"],
   RetPolicy.takeOwnership⟩

/-- The solve_casadi def exactly as registered in idaklu_python.cpp. -/
def solve_casadi_binding : FnBinding :=
  ⟨"solve_casadi",
   [marg "t", marg "y0", marg "yp0", marg "rhs_alg", marg "jac_times_cjmass",
    marg "jac_times_cjmass_rowvals", marg "jac_times_cjmass_colptrs",
    marg "jac_times_cjmass_nnz", marg "jac_action", marg "jacp_action",
    marg "mass_action", marg "sens", marg "events", marg "number_of_events",
    marg "use_jacobian", marg "rhs_alg_id", marg "atol", marg "rtol",
    marg "number_of_sensitivity_parameters"],
   RetPolicy.takeOwnership⟩

/-- The py::class_ binding of Solution: four fields, all def_readwrite. -/
def solutionClass : ClassBinding :=
  ⟨"solution",
   [⟨"t", "ndarray", Access.readwrite⟩,
    ⟨"y", "ndarray", Access.readwrite⟩,
    ⟨"yS", "VectorNdArray", Access.readwrite⟩,
    ⟨"flag", "int", Access.readwrite⟩]⟩

/-- The PYBIND11_MODULE(idaklu, m) block of idaklu_python.cpp: docstring,
the bind_vector of std::vector<np_array> to VectorNdArray, the two solve
defs and the solution class. -/
def idaklu : PyModule :=
  ⟨"idaklu", "sundials solvers", ["VectorNdArray"],
   [solve_python_binding, solve_casadi_binding], [solutionClass]⟩

/-- Names of the arguments of a bound function, in declaration order. -/
def argNames (f : FnBinding) : List String := f.args.map ArgSpec.name

/-- Solution record as exposed by the binding: times, states, sensitivity
blocks and status flag.  Numeric values are abstracted to integers; the
claims under verification are structural (lengths, emptiness, signs). -/
structure Solution where
  t : List Int
  y : List (List Int)
  yS : List (List (List Int))
  flag : Int
deriving DecidableEq, Repr

/-- Invariant of the Solution record stated in the spec, section 3, for a
solve with p sensitivity parameters. -/
def solutionInvariant (p : Nat) (s : Solution) : Prop :=
  s.t.length = s.y.length ∧
  (0 < p → s.yS.length = s.t.length) ∧
  (p = 0 → s.yS = [])

/-- Interface-level mutation of the t field, available to the caller
because the binding exposes t with def_readwrite. -/
def setFieldT (s : Solution) (v : List Int) : Solution :=
  ⟨v, s.y, s.yS, s.flag⟩

/-- Modelled from the spec: the ProblemSpec of section 3 (the engine that
consumes it, idaklu.cpp / idaklu_casadi.cpp, is not under the verified
sources).  Ordered output times, initial state and state-derivative, the
CSC Jacobian structure with its declared nonzero count, event count,
Jacobian-mode flag, algebraic/differential mask, tolerances and the
sensitivity-parameter count. -/
structure ProblemSpecM where
  outTimes : List Int
  y0 : List Int
  yp0 : List Int
  nnz : Nat
  jacRowVals : List Nat
  jacColPtrs : List Nat
  numberOfEvents : Nat
  useJacobian : Bool
  rhsAlgId : List Int
  atol : List Int
  rtol : Int
  nSens : Nat
deriving DecidableEq, Repr

/-- Modelled from the spec: outcome of one attempted advance of the DAE
Stepper of section 4.2 (the Stepper code is not under the verified
sources): an accepted step with its sensitivity block, Newton
non-convergence after the retry budget, or an event crossing located
before the next output time. -/
inductive StepOutcome where
  | ok (y : List Int) (ys : List (List Int))
  | newtonFail
  | eventHit (idx : Nat) (tEvent : Int) (y : List Int) (ys : List (List Int))

/-- Modelled from the spec: the residual/Jacobian/event callbacks of the
engine, abstracted to what the Stepper of sections 4.2 and 4.4 derives
from them (the engine code is not under the verified sources): a
consistent-initialization routine, a step function, and the per-event
terminal flag of the section 9 open question. -/
structure Stepper where
  consistentInit : List Int → List Int → Option (List Int)
  step : Int → List Int → StepOutcome
  terminalEvent : Nat → Bool

/-- Modelled from the spec: terminal states of the Stepper state machine
of sections 4.2 and 7 (the Stepper code is not under the verified
sources). -/
inductive TerminalState where
  | converged
  | initFailed
  | stepFailed
  | eventStop (idx : Nat)
  | cancelled
deriving DecidableEq, Repr

/-- Modelled from the spec: whether a terminal state is a failure kind of
the section 7 taxonomy (initialization, convergence or cancellation). -/
def TerminalState.isFailure : TerminalState → Bool
  | TerminalState.initFailed => true
  | TerminalState.stepFailed => true
  | TerminalState.cancelled => true
  | _ => false

/-- Modelled from the spec: the Output Solution Aggregator flag map of
section 4.5 (the aggregator code is not under the verified sources).  The
spec fixes only the signs: 0 for reaching the final requested time, a
negative code per failure kind, a positive code for an event-triggered
early stop; the concrete magnitudes here are chosen by the model. -/
def flagOf : TerminalState → Int
  | TerminalState.converged => 0
  | TerminalState.initFailed => -1
  | TerminalState.stepFailed => -4
  | TerminalState.eventStop _ => 2
  | TerminalState.cancelled => -5

/-- Modelled from the spec: one appended entry of the Solution buffer,
section 4.5 (the aggregator code is not under the verified sources): the
time and state are always appended together, a sensitivity block only
when the sensitivity-parameter count is positive. -/
def appendPoint (p : Nat) (sol : Solution) (tNew : Int) (yNew : List Int)
    (ysNew : List (List Int)) : Solution :=
  ⟨sol.t ++ [tNew], sol.y ++ [yNew],
   if 0 < p then sol.yS ++ [ysNew] else sol.yS, sol.flag⟩

/-- Modelled from the spec: the integration loop of sections 4.2 to 4.5
(the engine code is not under the verified sources).  Walks the remaining
requested output times; polls the cooperative cancellation flag between
Newton iterations and stops with the partial trajectory when it is set;
on an accepted step appends the point and continues; on exhausted Newton
retries stops with a failure; on an event either truncates at the event
time (terminal event) or restarts from the event point. -/
def runGo (p : Nat) (st : Stepper) (cancel : Nat → Bool) :
    List Int → List Int → Nat → Solution → TerminalState × Solution
  | [], _, _, sol => (TerminalState.converged, sol)
  | tNext :: rest, y, k, sol =>
    if cancel k then (TerminalState.cancelled, sol)
    else
      match st.step tNext y with
      | StepOutcome.newtonFail => (TerminalState.stepFailed, sol)
      | StepOutcome.ok y2 ys =>
        runGo p st cancel rest y2 (k + 1) (appendPoint p sol tNext y2 ys)
      | StepOutcome.eventHit i te y2 ys =>
        if st.terminalEvent i then
          (TerminalState.eventStop i, appendPoint p sol te y2 ys)
        else
          runGo p st cancel rest y2 (k + 1) (appendPoint p sol te y2 ys)

/-- Modelled from the spec: the full integration of sections 4.2 and 4.5
(the engine code is not under the verified sources): consistent
initialization first (failure there terminates with an initialization
error before any output), then the stepping loop; the flag of the
returned Solution is the flag map applied to the terminal state. -/
def integrate (spec : ProblemSpecM) (st : Stepper) (cancel : Nat → Bool) :
    Solution :=
  match st.consistentInit spec.y0 spec.yp0 with
  | none => ⟨[], [], [], flagOf TerminalState.initFailed⟩
  | some yc =>
    let r := runGo spec.nSens st cancel spec.outTimes yc 0 ⟨[], [], [], 0⟩
    ⟨r.2.t, r.2.y, r.2.yS, flagOf r.1⟩

/-- Modelled from the spec: the configuration-error taxonomy entries of
section 7 detected before integration starts (the validation code is not
under the verified sources). -/
inductive ConfigError where
  | malformedTolerances
  | mismatchedLengths
  | inconsistentSparsity
deriving DecidableEq, Repr

/-- Modelled from the spec: well-formedness of the tolerances, section 3
(absolute tolerance scalar or per-component) and section 7 (malformed
tolerances are a ConfigurationError). -/
def tolOk (spec : ProblemSpecM) : Bool :=
  decide (0 < spec.rtol) &&
  decide (spec.atol.length ≠ 0) &&
  spec.atol.all (fun a => decide (0 < a)) &&
  (spec.atol.length == 1 || spec.atol.length == spec.y0.length)

/-- Modelled from the spec: agreement of the array lengths of the problem
data, section 7 (mismatched array lengths are a ConfigurationError); the
algebraic/differential mask carries one entry per state variable. -/
def lenOk (spec : ProblemSpecM) : Bool :=
  (spec.y0.length == spec.yp0.length) &&
  (spec.rhsAlgId.length == spec.y0.length)

/-- Nondecreasing test on a list of naturals, used for the column-pointer
sequence of a CSC matrix. -/
def nondec : List Nat → Bool
  | [] => true
  | [_] => true
  | a :: b :: rest => decide (a ≤ b) && nondec (b :: rest)

/-- Modelled from the spec: the SparseMatrix invariant of section 3
(column-pointer sequence of length columns+1, nondecreasing, first entry
zero, last entry equal to the declared nonzero count, row indices within
bounds), checked against the declared nonzero count as section 4.1 and
section 7 require. -/
def sparseOk (spec : ProblemSpecM) : Bool :=
  (spec.jacColPtrs.length == spec.y0.length + 1) &&
  (spec.jacColPtrs.headD 0 == 0) &&
  (spec.jacColPtrs.getLastD 0 == spec.nnz) &&
  nondec spec.jacColPtrs &&
  (spec.jacRowVals.length == spec.nnz) &&
  spec.jacRowVals.all (fun r => decide (r < spec.y0.length))

/-- Modelled from the spec: pre-integration configuration validation,
section 7 (the validation code is not under the verified sources):
malformed tolerances, mismatched array lengths and inconsistent
sparse-matrix structure are detected before integration starts. -/
def checkConfig (spec : ProblemSpecM) : Option ConfigError :=
  if tolOk spec then
    if lenOk spec then
      if sparseOk spec then none
      else some ConfigError.inconsistentSparsity
    else some ConfigError.mismatchedLengths
  else some ConfigError.malformedTolerances

/-- Modelled from the spec: process-wide state that the design notes of
section 9 name as candidates for implicit global configuration (cached
sparsity pattern, default tolerances); section 5 and section 8 assert
that no such state affects the outcome of a solve. -/
structure EngineEnv where
  cachedSparsity : List Nat
  defaultRtol : Int
  solveCount : Nat
deriving DecidableEq, Repr

/-- Modelled from the spec: a whole solve call, sections 4 to 7 (the
engine code is not under the verified sources): validate the
configuration before integration starts, returning a ConfigurationError
with no partial Solution on failure, and otherwise run the integration;
the process-wide environment is taken as an explicit argument and, as
sections 5 and 8 assert, never read. -/
def solveM (spec : ProblemSpecM) (st : Stepper) (cancel : Nat → Bool)
    (_env : EngineEnv) : Except ConfigError Solution :=
  match checkConfig spec with
  | some e => Except.error e
  | none => Except.ok (integrate spec st cancel)

/-- Modelled from the spec: the terminal state reached by a solve, section
4.2 (the engine code is not under the verified sources): failure of
consistent initialization, or the state in which the stepping loop ends. -/
def termOf (spec : ProblemSpecM) (st : Stepper) (cancel : Nat → Bool) :
    TerminalState :=
  match st.consistentInit spec.y0 spec.yp0 with
  | none => TerminalState.initFailed
  | some yc =>
    (runGo spec.nSens st cancel spec.outTimes yc 0 ⟨[], [], [], 0⟩).1

/-- Concrete stepper fixture: initialization keeps the supplied state,
every step is accepted with a one-entry sensitivity block, every event is
terminal. -/
def stepperConst : Stepper :=
  ⟨fun y _ => some y, fun _ y => StepOutcome.ok y [[0]], fun _ => true⟩

/-- Cancellation flag that is never raised. -/
def cancelNever : Nat → Bool := fun _ => false

/-- Cancellation flag raised from the start. -/
def cancelAlways : Nat → Bool := fun _ => true

/-- Concrete well-formed problem with zero sensitivity parameters. -/
def specZero : ProblemSpecM :=
  ⟨[0, 1], [0], [0], 1, [0], [0, 1], 0, true, [0], [1], 1, 0⟩

/-- Concrete well-formed problem with one sensitivity parameter. -/
def specOne : ProblemSpecM :=
  ⟨[0, 1], [0], [0], 1, [0], [0, 1], 0, true, [0], [1], 1, 1⟩

/-- Concrete problem with a malformed relative tolerance (rtol = 0). -/
def specBad : ProblemSpecM :=
  ⟨[0, 1], [0], [0], 1, [0], [0, 1], 0, true, [0], [1], 0, 0⟩

/-- One concrete process-wide environment. -/
def envA : EngineEnv := ⟨[], 1, 0⟩

/-- A different concrete process-wide environment. -/
def envB : EngineEnv := ⟨[0, 1], 2, 5⟩

/-- Concrete Solution with one point and one sensitivity block. -/
def solOne : Solution := ⟨[0], [[1]], [[[2]]], 0⟩

/-- Appending a point preserves the Solution invariant. -/
lemma appendPoint_invariant (p : Nat) (sol : Solution) (tNew : Int)
    (yNew : List Int) (ysNew : List (List Int))
    (h : solutionInvariant p sol) :
    solutionInvariant p (appendPoint p sol tNew yNew ysNew) := by
  obtain ⟨h1, h2, h3⟩ := h
  refine ⟨?_, ?_, ?_⟩ <;> simp only [appendPoint]
  · simp [h1]
  · intro hp
    simp [hp, h2 hp, h1]
  · intro hp
    simp [hp, h3 hp]

/-- The stepping loop preserves the Solution invariant of the accumulated
trajectory. -/
lemma runGo_invariant (p : Nat) (st : Stepper) (cancel : Nat → Bool)
    (ts : List Int) (y : List Int) (k : Nat) (sol : Solution)
    (h : solutionInvariant p sol) :
    solutionInvariant p (runGo p st cancel ts y k sol).2 := by
  induction ts generalizing y k sol with
  | nil => simpa [runGo]
  | cons tNext rest ih =>
    simp only [runGo]
    split
    · exact h
    · split
      · exact h
      · exact ih _ _ _ (appendPoint_invariant _ _ _ _ _ h)
      · split
        · exact appendPoint_invariant _ _ _ _ _ h
        · exact ih _ _ _ (appendPoint_invariant _ _ _ _ _ h)

/-- Every Solution returned by the modelled integration satisfies the
Solution invariant for its sensitivity-parameter count. -/
lemma integrate_invariant (spec : ProblemSpecM) (st : Stepper)
    (cancel : Nat → Bool) :
    solutionInvariant spec.nSens (integrate spec st cancel) := by
  unfold integrate
  cases st.consistentInit spec.y0 spec.yp0 with
  | none => exact ⟨rfl, fun _ => rfl, fun _ => rfl⟩
  | some yc =>
    have h := runGo_invariant spec.nSens st cancel spec.outTimes yc 0
      ⟨[], [], [], 0⟩ ⟨rfl, fun _ => rfl, fun _ => rfl⟩
    exact h

/-- The flag of the returned Solution is the flag map applied to the
terminal state the run reached. -/
lemma integrate_flag (spec : ProblemSpecM) (st : Stepper)
    (cancel : Nat → Bool) :
    (integrate spec st cancel).flag = flagOf (termOf spec st cancel) := by
  unfold integrate termOf
  cases st.consistentInit spec.y0 spec.yp0 <;> rfl

/-- Stepper fixture whose every step reports event 0 crossing at the
current output time; all events are terminal. -/
def stepperEvent : Stepper :=
  ⟨fun y _ => some y, fun t _ => StepOutcome.eventHit 0 t [5] [], fun _ => true⟩

/-- Common parameter names shared by the two solve entry points as the
claim lists them: ordered output times, initial state and
state-derivative, event functions and event count, Jacobian-mode flag,
algebraic/differential mask, absolute and relative tolerance, and
sensitivity-parameter count. -/
def commonSurface : List String :=
  ["t", "y0", "yp0", "events", "number_of_events", "use_jacobian",
   "rhs_alg_id", "atol", "rtol", "number_of_sensitivity_parameters"]

/-- Residual/Jacobian provider argument names per section 6 of the spec:
the opaque callback providers of solve_python and the compiled evaluators
of solve_casadi together with their sparsity arrays. -/
def providerArgs : List String :=
  ["res", "jac", "get_jac_data", "get_jac_row_vals", "get_jac_col_ptr",
   "nnz", "rhs_alg", "jac_times_cjmass", "jac_times_cjmass_rowvals",
   "jac_times_cjmass_colptrs", "jac_times_cjmass_nnz", "jac_action",
   "jacp_action", "mass_action"]

/-- Whether the first character list begins the second. -/
def beginsChars : List Char → List Char → Bool
  | [], _ => true
  | _ :: _, [] => false
  | p :: ps, c :: cs => (p == c) && beginsChars ps cs

/-- Whether the first character list occurs inside the second. -/
def hasSubChars (pat : List Char) : List Char → Bool
  | [] => beginsChars pat []
  | c :: cs => beginsChars pat (c :: cs) || hasSubChars pat cs

/-- Whether a string contains the substring cancel. -/
def mentionsCancel (s : String) : Bool := hasSubChars "cancel".data s.data

/-- C1: every solve entry point returns a Solution record exposing exactly
the four fields t, y, yS, flag; the record is built by appending one entry
per accepted step (time and state always together, a sensitivity block
when the parameter count is positive), and both defs carry the
take_ownership return-value policy, so the returned record is handed to
the caller by value with no retained engine reference. -/
theorem c1_solution_record_interface :
    solutionClass.fields.map FieldBinding.name = ["t", "y", "yS", "flag"] ∧
    solutionClass.fields.length = 4 ∧
    solve_python_binding.policy = RetPolicy.takeOwnership ∧
    solve_casadi_binding.policy = RetPolicy.takeOwnership ∧
    (∀ p sol tNew yNew ysNew,
      (appendPoint p sol tNew yNew ysNew).t = sol.t ++ [tNew] ∧
      (appendPoint p sol tNew yNew ysNew).y = sol.y ++ [yNew] ∧
      ((appendPoint p sol tNew yNew ysNew).yS = sol.yS ++ [ysNew] ∨
       (appendPoint p sol tNew yNew ysNew).yS = sol.yS)) := by
  refine ⟨rfl, rfl, rfl, rfl, ?_⟩
  intro p sol tNew yNew ysNew
  refine ⟨rfl, rfl, ?_⟩
  by_cases hp : 0 < p
  · left
    simp [appendPoint, hp]
  · right
    simp [appendPoint, hp]

/-- C2: the module registers exactly the two solve entry points, each of
the common parameters of the claim appears in both argument lists, and every
argument appearing in one entry point but not the other is one of the
residual/Jacobian provider arguments. -/
theorem c2_two_entry_points_common_surface :
    idaklu.fns = [solve_python_binding, solve_casadi_binding] ∧
    commonSurface.all (fun c =>
      (argNames solve_python_binding).contains c &&
      (argNames solve_casadi_binding).contains c) = true ∧
    ((argNames solve_python_binding).filter (fun a =>
      !((argNames solve_casadi_binding).contains a))).all
      (fun a => providerArgs.contains a) = true ∧
    ((argNames solve_casadi_binding).filter (fun a =>
      !((argNames solve_python_binding).contains a))).all
      (fun a => providerArgs.contains a) = true := by
  refine ⟨rfl, ?_, ?_, ?_⟩ <;> decide

/-- C3: every Solution returned by the modelled solve has len(t) equal to
len(y); when the sensitivity-parameter count is positive, len(yS) equals
len(t); when it is zero, yS is empty. -/
theorem c3_solution_alignment (spec : ProblemSpecM) (st : Stepper)
    (cancel : Nat → Bool) :
    (integrate spec st cancel).t.length = (integrate spec st cancel).y.length ∧
    (0 < spec.nSens →
      (integrate spec st cancel).yS.length = (integrate spec st cancel).t.length) ∧
    (spec.nSens = 0 → (integrate spec st cancel).yS = []) :=
  integrate_invariant spec st cancel

/-- C3 witness: the alignment theorem applied to the concrete problem with
one sensitivity parameter and to the concrete problem with none. -/
theorem c3_solution_alignment_witness :
    (0 < specOne.nSens ∧
      (integrate specOne stepperConst cancelNever).yS.length =
        (integrate specOne stepperConst cancelNever).t.length) ∧
    (specZero.nSens = 0 ∧ (integrate specZero stepperConst cancelNever).yS = []) :=
  ⟨⟨by decide, (c3_solution_alignment specOne stepperConst cancelNever).2.1 (by decide)⟩,
   ⟨rfl, (c3_solution_alignment specZero stepperConst cancelNever).2.2 rfl⟩⟩

/-- C4: the flag of a returned Solution is 0 exactly when the run reached
the final requested time (terminal state Converged), negative exactly when
the run ended in a failure kind (initialization, convergence or
cancellation), and positive exactly when a terminal event stopped the run
early; and at a terminal event the stepping loop stops at once, discarding
the remaining requested times, with the trajectory truncated at the event
time. -/
theorem c4_flag_encoding (spec : ProblemSpecM) (st : Stepper)
    (cancel : Nat → Bool) :
    ((integrate spec st cancel).flag = 0 ↔
      termOf spec st cancel = TerminalState.converged) ∧
    ((integrate spec st cancel).flag < 0 ↔
      (termOf spec st cancel).isFailure = true) ∧
    (0 < (integrate spec st cancel).flag ↔
      ∃ i, termOf spec st cancel = TerminalState.eventStop i) ∧
    (∀ tNext rest y k sol i te y2 ys, cancel k = false →
      st.step tNext y = StepOutcome.eventHit i te y2 ys →
      st.terminalEvent i = true →
      runGo spec.nSens st cancel (tNext :: rest) y k sol =
        (TerminalState.eventStop i, appendPoint spec.nSens sol te y2 ys)) := by
  have hflag := integrate_flag spec st cancel
  refine ⟨?_, ?_, ?_, ?_⟩
  · rw [hflag]
    cases termOf spec st cancel <;> simp [flagOf, TerminalState.isFailure]
  · rw [hflag]
    cases termOf spec st cancel <;> simp [flagOf, TerminalState.isFailure]
  · rw [hflag]
    cases termOf spec st cancel <;> simp [flagOf, TerminalState.isFailure]
  · intro tNext rest y k sol i te y2 ys hc hstep hterm
    simp [runGo, hc, hstep, hterm]

/-- C4 witness: the truncation clause applied to a concrete run whose
first step hits terminal event 0 at time 0: the loop returns at once with
the event-stop state and only the event point appended, the remaining
requested time discarded. -/
theorem c4_flag_encoding_witness :
    runGo specZero.nSens stepperEvent cancelNever (0 :: [1]) [0] 0 ⟨[], [], [], 0⟩ =
      (TerminalState.eventStop 0, appendPoint specZero.nSens ⟨[], [], [], 0⟩ 0 [5] []) :=
  (c4_flag_encoding specZero stepperEvent cancelNever).2.2.2
    0 [1] [0] 0 ⟨[], [], [], 0⟩ 0 0 [5] [] rfl rfl rfl

/-- C5: two solve invocations with identical inputs (problem data, stepper
callbacks, cancellation flag) return identical results, whatever the
process-wide environment of each invocation: no hidden or process-wide
state affects the outcome. -/
theorem c5_determinism (s1 s2 : ProblemSpecM) (st1 st2 : Stepper)
    (c1 c2 : Nat → Bool) (e1 e2 : EngineEnv)
    (hs : s1 = s2) (hst : st1 = st2) (hc : c1 = c2) :
    solveM s1 st1 c1 e1 = solveM s2 st2 c2 e2 := by
  subst hs
  subst hst
  subst hc
  rfl

/-- C5 witness: the determinism theorem applied to one concrete problem
under two different process-wide environments. -/
theorem c5_determinism_witness :
    solveM specZero stepperConst cancelNever envA =
      solveM specZero stepperConst cancelNever envB :=
  c5_determinism specZero specZero stepperConst stepperConst
    cancelNever cancelNever envA envB rfl rfl rfl

/-- C6: whenever the configuration is malformed (bad tolerances,
mismatched array lengths, or a declared nonzero count inconsistent with
the column-pointer structure), the solve returns a ConfigurationError
detected before integration starts and no Solution, partial or otherwise,
is produced. -/
theorem c6_config_error_preempts (spec : ProblemSpecM) (st : Stepper)
    (cancel : Nat → Bool) (env : EngineEnv)
    (h : tolOk spec = false ∨ lenOk spec = false ∨ sparseOk spec = false) :
    (∃ e, solveM spec st cancel env = Except.error e) ∧
    ∀ s, solveM spec st cancel env ≠ Except.ok s := by
  have hcc : ∃ e, checkConfig spec = some e := by
    by_cases htol : tolOk spec = true
    · by_cases hlen : lenOk spec = true
      · by_cases hsp : sparseOk spec = true
        · exfalso
          rcases h with h | h | h <;> simp_all
        · exact ⟨ConfigError.inconsistentSparsity, by simp [checkConfig, htol, hlen, hsp]⟩
      · exact ⟨ConfigError.mismatchedLengths, by simp [checkConfig, htol, hlen]⟩
    · exact ⟨ConfigError.malformedTolerances, by simp [checkConfig, htol]⟩
  obtain ⟨e, he⟩ := hcc
  refine ⟨⟨e, ?_⟩, ?_⟩
  · simp [solveM, he]
  · intro s
    simp [solveM, he]

/-- C6 witness: the concrete problem whose relative tolerance is zero is
rejected; in particular the empty Solution is not returned. -/
theorem c6_config_error_preempts_witness :
    solveM specBad stepperConst cancelNever envA ≠ Except.ok ⟨[], [], [], 0⟩ :=
  (c6_config_error_preempts specBad stepperConst cancelNever envA
    (Or.inl (by decide))).2 ⟨[], [], [], 0⟩

/-- C7 counterexample: the full argument lists of the two bound solve
entry points, read off idaklu_python.cpp, contain no cancellation
parameter: no argument name mentions cancellation, so a cancellation
input is not part of the bound solve interface contract. -/
theorem c7_no_cancel_parameter :
    argNames solve_python_binding =
      ["t", "y0", "yp0", "res", "jac", "sens", "get_jac_data",
       "get_jac_row_vals", "get_jac_col_ptr", "nnz", "events",
       "number_of_events", "use_jacobian", "rhs_alg_id", "atol", "rtol",
       "number_of_sensitivity_parameters"] ∧
    argNames solve_casadi_binding =
      ["t", "y0", "yp0", "rhs_alg", "jac_times_cjmass",
       "jac_times_cjmass_rowvals", "jac_times_cjmass_colptrs",
       "jac_times_cjmass_nnz", "jac_action", "jacp_action", "mass_action",
       "sens", "events", "number_of_events", "use_jacobian", "rhs_alg_id",
       "atol", "rtol", "number_of_sensitivity_parameters"] ∧
    (argNames solve_python_binding ++ argNames solve_casadi_binding).all
      (fun a => !(mentionsCancel a)) = true := by
  refine ⟨rfl, rfl, ?_⟩
  decide

/-- C7 amended: in the modelled engine the external cancel request is an
out-of-band flag, polled cooperatively between Newton iterations of the
stepping loop; when it is observed set, the loop terminates at once with
the cancellation terminal state, the partial trajectory accumulated so
far, and a (negative) cancellation flag value. -/
theorem c7_cancellation_cooperative (p : Nat) (st : Stepper)
    (cancel : Nat → Bool) (tNext : Int) (rest : List Int) (y : List Int)
    (k : Nat) (sol : Solution) (h : cancel k = true) :
    runGo p st cancel (tNext :: rest) y k sol = (TerminalState.cancelled, sol) ∧
    flagOf TerminalState.cancelled < 0 := by
  constructor
  · simp [runGo, h]
  · decide

/-- C7 witness: a run cancelled from the start returns the empty partial
trajectory with the cancellation state. -/
theorem c7_cancellation_cooperative_witness :
    runGo 1 stepperConst cancelAlways (0 :: [1]) [0] 0 ⟨[], [], [], 0⟩ =
      (TerminalState.cancelled, ⟨[], [], [], 0⟩) :=
  (c7_cancellation_cooperative 1 stepperConst cancelAlways 0 [1] [0] 0
    ⟨[], [], [], 0⟩ rfl).1

/-- C8: all four fields of the bound Solution class are exposed
def_readwrite, and the interface-level mutation this permits can break the
alignment invariant: a Solution satisfying the invariant for one
sensitivity parameter no longer satisfies it after the caller overwrites
its t field. -/
theorem c8_readwrite_fields_break_invariant :
    solutionClass.fields.map FieldBinding.access =
      [Access.readwrite, Access.readwrite, Access.readwrite, Access.readwrite] ∧
    solutionInvariant 1 solOne ∧
    ¬ solutionInvariant 1 (setFieldT solOne []) := by
  refine ⟨rfl, ?_, ?_⟩
  · exact ⟨rfl, fun _ => rfl, fun hp => absurd hp (by decide)⟩
  · intro hinv
    exact absurd hinv.1 (by decide)

/-- C9: the module binds std::vector<np_array> once, as the opaque
sequence type VectorNdArray; the yS field is of that type; a solve with
zero sensitivity parameters returns the empty value of that same type;
and a solve with one sensitivity parameter can return an identical yS
value, so the interface value of yS alone does not distinguish the two
configurations. -/
theorem c9_ys_opaque_vector (spec : ProblemSpecM) (st : Stepper)
    (cancel : Nat → Bool) (h : spec.nSens = 0) :
    idaklu.vectorBindings = ["VectorNdArray"] ∧
    (solutionClass.fields.filter (fun f => f.name == "yS")).map
      FieldBinding.ftype = ["VectorNdArray"] ∧
    (integrate spec st cancel).yS = [] ∧
    (integrate specZero stepperConst cancelNever).yS =
      (integrate specOne stepperConst cancelAlways).yS := by
  refine ⟨rfl, rfl, (integrate_invariant spec st cancel).2.2 h, ?_⟩
  decide

/-- C9 witness: the opaque-type theorem applied to the concrete
zero-sensitivity problem. -/
theorem c9_ys_opaque_vector_witness :
    (integrate specZero stepperConst cancelNever).yS = [] :=
  (c9_ys_opaque_vector specZero stepperConst cancelNever rfl).2.2.1

/-- C10: every argument of both bound solve entry points is mandatory (no
py::arg carries a default value), and in particular the Jacobian structure
providers of each variant appear in its argument list, so they must be
supplied even when use_jacobian is false. -/
theorem c10_all_args_mandatory :
    idaklu.fns.all (fun fn => fn.args.all (fun a => !a.hasDefault)) = true ∧
    ["get_jac_data", "get_jac_row_vals", "get_jac_col_ptr", "nnz"].all
      (fun a => (argNames solve_python_binding).contains a) = true ∧
    ["jac_times_cjmass", "jac_times_cjmass_rowvals", "jac_times_cjmass_colptrs",
     "jac_times_cjmass_nnz"].all
      (fun a => (argNames solve_casadi_binding).contains a) = true ∧
    (argNames solve_python_binding).contains "use_jacobian" = true ∧
    (argNames solve_casadi_binding).contains "use_jacobian" = true := by
  refine ⟨?_, ?_, ?_, ?_, ?_⟩ <;> decide
